import Mathlib

/-!
Shallow embedding of the three Express services of the
`microservice-node` bookstore demo:

* the Order Service (`service-commandes/index.js`, port 3002):
  `POST /commandes`, `GET /commandes`, `GET /commandes/:id`;
* the Account Service (same file after the separator, port 3003):
  `POST /login`, `GET /users/:id`;
* the Catalog Service (`unnamed/part_001`, port 3001): `PUT /livres/:id`.

Remote HTTP calls made by the Order Service are modelled by oracle
functions supplied in an environment structure; the SQLite stores are
modelled as lists of records plus a next-autoincrement id.  JavaScript
`undefined` is modelled by `Option.none`, and JS truthiness of the
request-body fields is modelled explicitly (`0` and `""` are falsy).
-/

/-- JS truthiness of an optional integer request-body field:
`!userId` is true when the field is absent or `0`. -/
def truthyId : Option Int → Option Int
  | none => none
  | some n => if n = 0 then none else some n

/-- JS truthiness of an optional string request-body field:
`!email` is true when the field is absent or the empty string. -/
def truthyStr : Option String → Option String
  | none => none
  | some s => if s = "" then none else some s

/-- Leading decimal digits of a character list (`parseInt` consumes the
longest digit run and ignores trailing garbage). -/
def leadingDigits : List Char → List Char
  | [] => []
  | c :: cs => if c.isDigit then c :: leadingDigits cs else []

/-- JavaScript `parseInt(s, 10)`: skip leading whitespace, optional
sign, then the longest run of decimal digits; `none` models `NaN`
(no digit found). -/
def parseIntJs (s : String) : Option Int :=
  let cs := s.toList.dropWhile fun c => c = ' ' ∨ c = '\t' ∨ c = '\n' ∨ c = '\r'
  let signAndRest : Int × List Char :=
    match cs with
    | '-' :: r => (-1, r)
    | '+' :: r => (1, r)
    | r => (1, r)
  let ds := leadingDigits signAndRest.2
  if ds = [] then none
  else some (signAndRest.1 * (ds.foldl (fun acc c => acc * 10 + (c.toNat - '0'.toNat)) 0 : Nat))

/-- An `Order` row of the `commandes.sqlite` store (Sequelize model
`Order`; the Sequelize bookkeeping timestamps are not modelled). -/
structure Order where
  id : Int
  userId : Int
  bookId : Int
  dateCommande : Int
  status : String
  deriving Repr, DecidableEq

/-- The Order Service's local store: persisted rows plus the next
autoincrement primary key. -/
structure OrderStore where
  orders : List Order
  nextId : Int
  deriving Repr, DecidableEq

/-- A `Book` row of the `livres.sqlite` store (`year` is a nullable
column). -/
structure Book where
  id : Int
  title : String
  author : String
  year : Option Int
  deriving Repr, DecidableEq

/-- A `User` row of the `utilisateurs.sqlite` store; `password` holds
the bcrypt digest. -/
structure User where
  id : Int
  email : String
  password : String
  name : String
  deriving Repr, DecidableEq

/-- A user record with the password field omitted, as returned by the
Account Service. -/
structure PublicUser where
  id : Int
  email : String
  name : String
  deriving Repr, DecidableEq

/-- `user.get({plain: true})` followed by destructuring away
`password`. -/
def User.withoutPassword (u : User) : PublicUser :=
  { id := u.id, email := u.email, name := u.name }

/-- Outcome of an `axios.get` as seen by the `try/catch` blocks of
`POST /commandes`: success (2xx), an HTTP error response carrying a
status (`error.response.status`), or a network-level failure with no
response at all (`error.response` undefined). -/
inductive RemoteResult where
  | ok
  | errStatus (status : Nat)
  | netErr
  deriving Repr, DecidableEq

/-- The user payload of a `GET /users/:id` response body as consumed
by the enrichment paths; `name` may be missing (`undefined`). -/
structure UserData where
  name : Option String
  deriving Repr, DecidableEq

/-- The book payload of a `GET /livres/:id` response body as consumed
by the enrichment paths; `title` may be missing (`undefined`). -/
structure BookData where
  title : Option String
  deriving Repr, DecidableEq

/-- Outcome of an enrichment `axios.get(...).catch(err => null)`:
`failure` is the caught error (the handler sees `null`), `emptyBody`
is a response whose `data` is falsy (e.g. an empty body), `payload` a
response with a truthy `data` object. -/
inductive RemoteFetch (α : Type) where
  | failure
  | emptyBody
  | payload (data : α)
  deriving Repr, DecidableEq

/-- An order enriched with the two denormalized display fields; `none`
models a field set to `undefined` (omitted by `JSON.stringify`). -/
structure EnrichedOrder where
  base : Order
  userName : Option String
  bookTitle : Option String
  deriving Repr, DecidableEq

/-- Response bodies produced by the modelled handlers. -/
inductive RespBody where
  | text (s : String)
  | order (o : Order)
  | enriched (e : EnrichedOrder)
  | enrichedList (l : List EnrichedOrder)
  | book (b : Book)
  | loginOk (message : String) (user : PublicUser)
  deriving Repr, DecidableEq

/-- An HTTP response: status code and body. -/
structure Resp where
  status : Nat
  body : RespBody
  deriving Repr, DecidableEq

/-- The JSON keys actually present in the serialization of an enriched
order: `JSON.stringify` omits properties whose value is `undefined`. -/
def EnrichedOrder.jsonKeys (e : EnrichedOrder) : List String :=
  ["id", "userId", "bookId", "dateCommande", "status"]
    ++ (match e.userName with | some _ => ["userName"] | none => [])
    ++ (match e.bookTitle with | some _ => ["bookTitle"] | none => [])

/-- One outbound HTTP call issued by `POST /commandes`, recorded in
the order it is made. -/
inductive ServiceCall where
  | user (id : Int)
  | book (id : Int)
  deriving Repr, DecidableEq

/-- Environment of `POST /commandes`: the oracle outcomes of the two
remote validation calls, and whether the local `Order.create` write
succeeds. -/
structure CreateEnv where
  userCall : Int → RemoteResult
  bookCall : Int → RemoteResult
  dbOk : Bool

/-- Request body of `POST /commandes` (`req.body`); each identifier
may be absent. -/
structure CreateBody where
  userId : Option Int
  bookId : Option Int
  deriving Repr, DecidableEq

/-- The `POST /commandes` handler (`service-commandes/index.js`
lines 185-238).  Returns the HTTP response, the store after the
request, and the trace of outbound calls in the order they were
issued. -/
def postCommandes (body : CreateBody) (env : CreateEnv) (store : OrderStore)
    (now : Int) : Resp × OrderStore × List ServiceCall :=
  match truthyId body.userId, truthyId body.bookId with
  | some userId, some bookId =>
    match env.userCall userId with
    | .ok =>
      match env.bookCall bookId with
      | .ok =>
        if env.dbOk then
          let newOrder : Order :=
            { id := store.nextId, userId := userId, bookId := bookId
              dateCommande := now, status := "En cours" }
          (⟨201, .order newOrder⟩,
           ⟨store.orders ++ [newOrder], store.nextId + 1⟩,
           [.user userId, .book bookId])
        else
          (⟨500, .text "Erreur base de données lors de la création de la commande."⟩,
           store, [.user userId, .book bookId])
      | .errStatus s =>
        if s = 404 then
          (⟨404, .text s!"Livre avec ID {bookId} non trouvé."⟩,
           store, [.user userId, .book bookId])
        else
          (⟨500, .text "Erreur lors de la vérification du livre."⟩,
           store, [.user userId, .book bookId])
      | .netErr =>
        (⟨500, .text "Erreur lors de la vérification du livre."⟩,
         store, [.user userId, .book bookId])
    | .errStatus s =>
      if s = 404 then
        (⟨404, .text s!"Utilisateur avec ID {userId} non trouvé."⟩,
         store, [.user userId])
      else
        (⟨500, .text "Erreur lors de la vérification de l'utilisateur."⟩,
         store, [.user userId])
    | .netErr =>
      (⟨500, .text "Erreur lors de la vérification de l'utilisateur."⟩,
       store, [.user userId])
  | _, _ => (⟨400, .text "userId et bookId sont requis"⟩, store, [])

/-- Environment of the enrichment read paths: per-id outcomes of the
two lookups done with `.catch(err => null)`. -/
structure ReadEnv where
  userFetch : Int → RemoteFetch UserData
  bookFetch : Int → RemoteFetch BookData

/-- `let userName = "Utilisateur inconnu"; if (userResponse?.data)
userName = userResponse.data.name` — the value the `userName`
enrichment field takes for a given user-lookup outcome. -/
def userNameField : RemoteFetch UserData → Option String
  | .failure => some "Utilisateur inconnu"
  | .emptyBody => some "Utilisateur inconnu"
  | .payload u => u.name

/-- `let bookTitle = "Livre inconnu"; if (bookResponse?.data)
bookTitle = bookResponse.data.title` — the value the `bookTitle`
enrichment field takes for a given book-lookup outcome. -/
def bookTitleField : RemoteFetch BookData → Option String
  | .failure => some "Livre inconnu"
  | .emptyBody => some "Livre inconnu"
  | .payload b => b.title

/-- Enrichment of one order: `{...order.get({plain: true}), userName,
bookTitle}` after the two parallel lookups. -/
def enrichOrder (env : ReadEnv) (o : Order) : EnrichedOrder :=
  { base := o
    userName := userNameField (env.userFetch o.userId)
    bookTitle := bookTitleField (env.bookFetch o.bookId) }

/-- The `GET /commandes` handler (`service-commandes/index.js`
lines 258-304): every stored order, enriched. -/
def getCommandes (store : List Order) (env : ReadEnv) : Resp :=
  ⟨200, .enrichedList (store.map (enrichOrder env))⟩

/-- The `GET /commandes/:id` handler (`service-commandes/index.js`
lines 333-392): `parseInt` the path parameter (400 on `NaN`),
`findByPk` in the local store (404 when absent), otherwise the
enriched order. -/
def getCommandeById (idParam : String) (store : List Order) (env : ReadEnv) : Resp :=
  match parseIntJs idParam with
  | none => ⟨400, .text "ID de commande invalide."⟩
  | some orderId =>
    match store.find? (fun o => o.id = orderId) with
    | some o => ⟨200, .enriched (enrichOrder env o)⟩
    | none => ⟨404, .text "Commande non trouvée"⟩

/-- Request body of `PUT /livres/:id`: `title` and `author` are tested
with JS truthiness, `year` with `typeof year === 'undefined'`, so the
outer `Option` of `year` is presence and the inner one is JSON
`null`. -/
structure UpdateBookBody where
  title : Option String
  author : Option String
  year : Option (Option Int)
  deriving Repr, DecidableEq

/-- The `PUT /livres/:id` handler (`unnamed/part_001` lines 285-313):
`findByPk` (404 when absent), reject when no field is supplied, apply
only the supplied fields, save. -/
def putLivre (idParam : String) (body : UpdateBookBody) (books : List Book) :
    Resp × List Book :=
  let book? : Option Book :=
    match parseIntJs idParam with
    | none => none
    | some bookId => books.find? (fun b => b.id = bookId)
  match book? with
  | none => (⟨404, .text "Livre non trouvé"⟩, books)
  | some book =>
    if truthyStr body.title = none ∧ truthyStr body.author = none ∧ body.year = none then
      (⟨400, .text "Au moins un champ (titre, auteur, année) doit être fourni pour la mise à jour"⟩,
       books)
    else
      let b1 := match truthyStr body.title with
        | some t => { book with title := t }
        | none => book
      let b2 := match truthyStr body.author with
        | some a => { b1 with author := a }
        | none => b1
      let b3 := match body.year with
        | some y => { b2 with year := y }
        | none => b2
      (⟨200, .book b3⟩, books.map (fun b => if b.id = book.id then b3 else b))

/-- Request body of `POST /login`. -/
structure LoginBody where
  email : Option String
  password : Option String
  deriving Repr, DecidableEq

/-- `User.findOne({ where: { email } })`. -/
def findUserByEmail (email : String) (users : List User) : Option User :=
  users.find? (fun u => u.email = email)

/-- The `POST /login` handler of the Account Service
(`service-commandes/index.js` lines 663-695 after the separator):
reject missing fields, look up by email, compare the password against
the stored digest with `bcrypt.compare` (the opaque oracle
`compare`). -/
def postLogin (body : LoginBody) (users : List User)
    (compare : String → String → Bool) : Resp :=
  match truthyStr body.email, truthyStr body.password with
  | some email, some password =>
    match findUserByEmail email users with
    | none => ⟨401, .text "Email ou mot de passe invalide"⟩
    | some user =>
      if compare password user.password then
        ⟨200, .loginOk "Connexion réussie" user.withoutPassword⟩
      else
        ⟨401, .text "Email ou mot de passe invalide"⟩
  | _, _ => ⟨400, .text "Email et mot de passe sont requis"⟩

/-- A create environment where both remote validations succeed and the
local write succeeds. -/
def allOkEnv : CreateEnv :=
  { userCall := fun _ => .ok, bookCall := fun _ => .ok, dbOk := true }

/-- A create environment where the Account Service is unreachable. -/
def userDownEnv : CreateEnv :=
  { userCall := fun _ => .netErr, bookCall := fun _ => .ok, dbOk := true }

/-- A read environment where both enrichment lookups fail. -/
def failFetchEnv : ReadEnv :=
  { userFetch := fun _ => .failure, bookFetch := fun _ => .failure }

/-- C1: a rejected `POST /commandes` (any non-201 outcome) leaves the
order store exactly as it was, so a subsequent `GET /commandes` sees
the same list; and the store changes only when both remote validations
returned success and the response is 201. -/
theorem C1_no_persist_without_validation
    (body : CreateBody) (env : CreateEnv) (store : OrderStore) (now : Int) :
    ((postCommandes body env store now).1.status ≠ 201 →
        (postCommandes body env store now).2.1 = store ∧
        ∀ renv : ReadEnv,
          getCommandes (postCommandes body env store now).2.1.orders renv =
            getCommandes store.orders renv) ∧
    ((postCommandes body env store now).2.1 ≠ store →
        ∃ userId bookId,
          truthyId body.userId = some userId ∧ truthyId body.bookId = some bookId ∧
          env.userCall userId = RemoteResult.ok ∧ env.bookCall bookId = RemoteResult.ok ∧
          (postCommandes body env store now).1.status = 201) := by
  unfold postCommandes
  rcases hu : truthyId body.userId with _ | userId <;>
    rcases hb : truthyId body.bookId with _ | bookId <;>
    simp only
  case some.some =>
    rcases hc : env.userCall userId with _ | s | _
    · rcases hd : env.bookCall bookId with _ | s | _
      · rcases hdb : env.dbOk with _ | _
        · simp
        · exact ⟨fun h => absurd rfl h, fun _ => ⟨userId, bookId, rfl, rfl, hc, hd, rfl⟩⟩
      · by_cases h4 : s = 404 <;> simp [h4]
      · simp
    · by_cases h4 : s = 404 <;> simp [h4]
    · simp
  all_goals simp

/-- C1 witness: a user-not-found rejection leaves a concrete store
untouched. -/
theorem C1_no_persist_without_validation_witness :
    (postCommandes ⟨some 1, some 2⟩
        ⟨fun _ => .errStatus 404, fun _ => .ok, true⟩ ⟨[], 1⟩ 0).2.1 = ⟨[], 1⟩ :=
  ((C1_no_persist_without_validation ⟨some 1, some 2⟩
      ⟨fun _ => .errStatus 404, fun _ => .ok, true⟩ ⟨[], 1⟩ 0).1 (by decide)).1

/-- C2: the outbound call trace of `POST /commandes` is empty, just the
user-validation call, or the user-validation call followed by the
book-validation call with the user call having succeeded; and whenever
the user check fails (any non-success outcome), no call to the Catalog
Service appears in the trace. -/
theorem C2_user_check_before_book_check
    (body : CreateBody) (env : CreateEnv) (store : OrderStore) (now : Int) :
    ((postCommandes body env store now).2.2 = [] ∨
      (∃ userId, truthyId body.userId = some userId ∧
        (postCommandes body env store now).2.2 = [ServiceCall.user userId]) ∨
      (∃ userId bookId, truthyId body.userId = some userId ∧
        truthyId body.bookId = some bookId ∧
        env.userCall userId = RemoteResult.ok ∧
        (postCommandes body env store now).2.2 =
          [ServiceCall.user userId, ServiceCall.book bookId])) ∧
    (∀ userId, truthyId body.userId = some userId →
      env.userCall userId ≠ RemoteResult.ok →
      ∀ b, ServiceCall.book b ∉ (postCommandes body env store now).2.2) := by
  unfold postCommandes
  rcases hu : truthyId body.userId with _ | userId <;>
    rcases hb : truthyId body.bookId with _ | bookId <;>
    simp only
  case some.some =>
    rcases hc : env.userCall userId with _ | s | _
    · constructor
      · refine Or.inr (Or.inr ⟨userId, bookId, rfl, rfl, hc, ?_⟩)
        rcases hd : env.bookCall bookId with _ | s | _
        · rcases hdb : env.dbOk with _ | _ <;> simp
        · by_cases h4 : s = 404 <;> simp [h4]
        · simp
      · intro u hu' hne b
        injection hu' with h
        exact absurd (h ▸ hc) hne
    · constructor
      · refine Or.inr (Or.inl ⟨userId, rfl, ?_⟩)
        by_cases h4 : s = 404 <;> simp [h4]
      · intro u hu' hne b
        by_cases h4 : s = 404 <;> simp [h4]
    · exact ⟨Or.inr (Or.inl ⟨userId, rfl, rfl⟩), by intro u hu' hne b; simp⟩
  all_goals simp

/-- C2 witness: with the Account Service unreachable, the trace of a
concrete create request contains no Catalog Service call. -/
theorem C2_user_check_before_book_check_witness :
    ServiceCall.book 2 ∉ (postCommandes ⟨some 1, some 2⟩ userDownEnv ⟨[], 1⟩ 0).2.2 :=
  (C2_user_check_before_book_check ⟨some 1, some 2⟩ userDownEnv ⟨[], 1⟩ 0).2
    1 (by decide) (by decide) 2

/-- C4: during order creation a clean remote 404 maps to a 404 whose
message names the missing entity (user for the Account Service call,
book for the Catalog Service call), while any other remote failure
(no response, or a non-404 error status) maps to a 500 dependency
error. -/
theorem C4_remote_failure_classification
    (body : CreateBody) (env : CreateEnv) (store : OrderStore) (now : Int)
    (userId bookId : Int)
    (hu : truthyId body.userId = some userId)
    (hb : truthyId body.bookId = some bookId) :
    (env.userCall userId = RemoteResult.errStatus 404 →
      (postCommandes body env store now).1 =
        ⟨404, .text s!"Utilisateur avec ID {userId} non trouvé."⟩) ∧
    (∀ s, env.userCall userId = RemoteResult.errStatus s → s ≠ 404 →
      (postCommandes body env store now).1 =
        ⟨500, .text "Erreur lors de la vérification de l'utilisateur."⟩) ∧
    (env.userCall userId = RemoteResult.netErr →
      (postCommandes body env store now).1 =
        ⟨500, .text "Erreur lors de la vérification de l'utilisateur."⟩) ∧
    (env.userCall userId = RemoteResult.ok →
      env.bookCall bookId = RemoteResult.errStatus 404 →
      (postCommandes body env store now).1 =
        ⟨404, .text s!"Livre avec ID {bookId} non trouvé."⟩) ∧
    (env.userCall userId = RemoteResult.ok →
      ∀ s, env.bookCall bookId = RemoteResult.errStatus s → s ≠ 404 →
      (postCommandes body env store now).1 =
        ⟨500, .text "Erreur lors de la vérification du livre."⟩) ∧
    (env.userCall userId = RemoteResult.ok →
      env.bookCall bookId = RemoteResult.netErr →
      (postCommandes body env store now).1 =
        ⟨500, .text "Erreur lors de la vérification du livre."⟩) := by
  unfold postCommandes
  simp only [hu, hb]
  refine ⟨?_, ?_, ?_, ?_, ?_, ?_⟩
  · intro h; simp only [h]; simp
  · intro s h hs; simp only [h]; simp [hs]
  · intro h; simp only [h]
  · intro h1 h2; simp only [h1, h2]; simp
  · intro h1 s h2 hs; simp only [h1, h2]; simp [hs]
  · intro h1 h2; simp only [h1, h2]

/-- C4 witness: a concrete 404 from the Account Service yields the
user-not-found response. -/
theorem C4_remote_failure_classification_witness :
    (postCommandes ⟨some 1, some 2⟩
        ⟨fun _ => .errStatus 404, fun _ => .ok, true⟩ ⟨[], 1⟩ 0).1 =
      ⟨404, .text "Utilisateur avec ID 1 non trouvé."⟩ :=
  (C4_remote_failure_classification ⟨some 1, some 2⟩
      ⟨fun _ => .errStatus 404, fun _ => .ok, true⟩ ⟨[], 1⟩ 0 1 2
      (by decide) (by decide)).1 rfl

/-- C5: when both remote validations succeed and the local write
succeeds, `POST /commandes` answers 201 with the persisted order,
whose userId and bookId are the input identifiers, whose status is the
default "En cours" and whose order timestamp is the creation time; the
order is appended to the store. -/
theorem C5_successful_create_returns_persisted_order
    (body : CreateBody) (env : CreateEnv) (store : OrderStore) (now : Int)
    (userId bookId : Int)
    (hu : truthyId body.userId = some userId)
    (hb : truthyId body.bookId = some bookId)
    (hue : env.userCall userId = RemoteResult.ok)
    (hbe : env.bookCall bookId = RemoteResult.ok)
    (hdb : env.dbOk = true) :
    ∃ o : Order,
      (postCommandes body env store now).1 = ⟨201, .order o⟩ ∧
      o.userId = userId ∧ o.bookId = bookId ∧
      o.status = "En cours" ∧ o.dateCommande = now ∧
      (postCommandes body env store now).2.1.orders = store.orders ++ [o] := by
  unfold postCommandes
  simp only [hu, hb, hue, hbe, hdb]
  exact ⟨⟨store.nextId, userId, bookId, now, "En cours"⟩, rfl, rfl, rfl, rfl, rfl, rfl⟩

/-- C5 witness: a concrete successful create. -/
theorem C5_successful_create_returns_persisted_order_witness :
    ∃ o : Order,
      (postCommandes ⟨some 1, some 2⟩ allOkEnv ⟨[], 1⟩ 5).1 = ⟨201, .order o⟩ ∧
      o.userId = 1 ∧ o.bookId = 2 ∧
      o.status = "En cours" ∧ o.dateCommande = 5 ∧
      (postCommandes ⟨some 1, some 2⟩ allOkEnv ⟨[], 1⟩ 5).2.1.orders = [] ++ [o] :=
  C5_successful_create_returns_persisted_order ⟨some 1, some 2⟩ allOkEnv ⟨[], 1⟩ 5 1 2
    (by decide) (by decide) rfl rfl rfl

/-- C6 counterexample: the body `{userId: 0, bookId: 1}` has both
identifiers present, yet the handler rejects it with 400 because the
JS truthiness test `!userId` also fires on the value `0`. -/
theorem C6_counterexample_zero_id_present_but_rejected :
    (CreateBody.mk (some 0) (some 1)).userId.isSome = true ∧
    (CreateBody.mk (some 0) (some 1)).bookId.isSome = true ∧
    (postCommandes ⟨some 0, some 1⟩ allOkEnv ⟨[], 1⟩ 0).1.status = 400 := by
  decide

/-- C6 amended: `POST /commandes` answers 400 exactly when the userId
or the bookId is absent or falsy (the integer `0`); a request in which
both identifiers are present and non-zero is never rejected as invalid
input. -/
theorem C6_amended_invalid_input_iff_missing_or_falsy
    (body : CreateBody) (env : CreateEnv) (store : OrderStore) (now : Int) :
    (postCommandes body env store now).1.status = 400 ↔
      truthyId body.userId = none ∨ truthyId body.bookId = none := by
  unfold postCommandes
  rcases hu : truthyId body.userId with _ | userId <;>
    rcases hb : truthyId body.bookId with _ | bookId <;> simp
  rcases hc : env.userCall userId with _ | s | _
  · rcases hd : env.bookCall bookId with _ | s | _
    · rcases hdb : env.dbOk with _ | _ <;> simp
    · by_cases h4 : s = 404 <;> simp [h4]
    · simp
  · by_cases h4 : s = 404 <;> simp [h4]
  · simp

/-- C6 amended witness: a body lacking userId is rejected 400. -/
theorem C6_amended_invalid_input_iff_missing_or_falsy_witness :
    (postCommandes ⟨none, some 1⟩ allOkEnv ⟨[], 1⟩ 0).1.status = 400 :=
  (C6_amended_invalid_input_iff_missing_or_falsy ⟨none, some 1⟩ allOkEnv ⟨[], 1⟩ 0).mpr
    (Or.inl (by decide))

/-- C3: on both read paths every returned order is the stored order's
own fields intact under a 200, with `userName` a function of the user
lookup alone and `bookTitle` a function of the book lookup alone (so
one failure never affects the other field), and a failed lookup yields
the fixed sentinel. -/
theorem C3_enrichment_independent_fault_tolerance
    (store : List Order) (env : ReadEnv) :
    (∀ idParam oid o, parseIntJs idParam = some oid →
        store.find? (fun x => x.id = oid) = some o →
        getCommandeById idParam store env =
          ⟨200, .enriched ⟨o, userNameField (env.userFetch o.userId),
                              bookTitleField (env.bookFetch o.bookId)⟩⟩) ∧
    (getCommandes store env =
      ⟨200, .enrichedList (store.map (fun o =>
          ⟨o, userNameField (env.userFetch o.userId),
              bookTitleField (env.bookFetch o.bookId)⟩))⟩) ∧
    userNameField RemoteFetch.failure = some "Utilisateur inconnu" ∧
    bookTitleField RemoteFetch.failure = some "Livre inconnu" := by
  refine ⟨?_, ?_, rfl, rfl⟩
  · intro idParam oid o hp hf
    unfold getCommandeById
    simp only [hp, hf]
    rfl
  · unfold getCommandes enrichOrder
    rfl

/-- C3 witness: both lookups failing still yields 200 with the order's
fields and the two sentinels. -/
theorem C3_enrichment_independent_fault_tolerance_witness :
    getCommandeById "1" [⟨1, 10, 20, 0, "En cours"⟩] failFetchEnv =
      ⟨200, .enriched ⟨⟨1, 10, 20, 0, "En cours"⟩,
        some "Utilisateur inconnu", some "Livre inconnu"⟩⟩ :=
  (C3_enrichment_independent_fault_tolerance [⟨1, 10, 20, 0, "En cours"⟩] failFetchEnv).1
    "1" 1 ⟨1, 10, 20, 0, "En cours"⟩ (by decide) (by decide)

/-- A decimal numeral: nonempty and consisting only of digits. -/
def isNumericString (s : String) : Bool :=
  s ≠ "" && s.toList.all Char.isDigit

/-- C9 counterexample: the non-numeric path parameter `"3x"` is parsed
by `parseInt` as `3`, so the handler answers 404 on an empty store,
not the 400 the claim requires for every non-numeric id. -/
theorem C9_counterexample_nonnumeric_id_not_400 :
    isNumericString "3x" = false ∧
    (getCommandeById "3x" [] failFetchEnv).status = 404 ∧
    (getCommandeById "3x" [] failFetchEnv).status ≠ 400 := by
  decide

/-- C9 amended: `GET /commandes/:id` answers 400 exactly when
`parseInt(id, 10)` yields `NaN` (no leading integer); otherwise the id
is the parsed leading integer, and the handler answers 404 when no
order with that id is stored and 200 with the enriched order when one
is. -/
theorem C9_amended_id_parsing_and_lookup
    (idParam : String) (store : List Order) (env : ReadEnv) :
    ((getCommandeById idParam store env).status = 400 ↔ parseIntJs idParam = none) ∧
    (∀ oid, parseIntJs idParam = some oid →
      (store.find? (fun o => o.id = oid) = none →
        getCommandeById idParam store env = ⟨404, .text "Commande non trouvée"⟩) ∧
      (∀ o, store.find? (fun o => o.id = oid) = some o →
        getCommandeById idParam store env = ⟨200, .enriched (enrichOrder env o)⟩)) := by
  unfold getCommandeById
  rcases hp : parseIntJs idParam with _ | oid
  · simp
  · refine ⟨?_, ?_⟩
    · rcases hf : store.find? (fun x => x.id = oid) with _ | o <;> simp [hf]
    · intro oid' ho
      injection ho with ho
      subst ho
      refine ⟨?_, ?_⟩
      · intro hf; simp [hf]
      · intro o hf; simp [hf]

/-- C9 amended witness: a numeric id absent from the store yields
404. -/
theorem C9_amended_id_parsing_and_lookup_witness :
    getCommandeById "5" [] failFetchEnv = ⟨404, .text "Commande non trouvée"⟩ :=
  ((C9_amended_id_parsing_and_lookup "5" [] failFetchEnv).2 5 (by decide)).1 (by decide)

/-- C10: the enrichment fields copy the payload's field verbatim when
the lookup succeeds with a truthy payload (so a payload lacking the
expected field yields `undefined`, omitted from the JSON, not the
sentinel), and a sentinel value can only come from a failed lookup, an
empty body, or a payload that literally carries the sentinel string. -/
theorem C10_sentinel_only_on_failed_or_empty_lookup
    (store : List Order) (env : ReadEnv) :
    (∀ u, userNameField (RemoteFetch.payload u) = u.name) ∧
    (∀ b, bookTitleField (RemoteFetch.payload b) = b.title) ∧
    (∀ f : RemoteFetch UserData, userNameField f = some "Utilisateur inconnu" →
        f = RemoteFetch.failure ∨ f = RemoteFetch.emptyBody ∨
        ∃ u, f = RemoteFetch.payload u ∧ u.name = some "Utilisateur inconnu") ∧
    (∀ f : RemoteFetch BookData, bookTitleField f = some "Livre inconnu" →
        f = RemoteFetch.failure ∨ f = RemoteFetch.emptyBody ∨
        ∃ b, f = RemoteFetch.payload b ∧ b.title = some "Livre inconnu") ∧
    (∀ o u b, env.userFetch o.userId = RemoteFetch.payload u →
        env.bookFetch o.bookId = RemoteFetch.payload b →
        (enrichOrder env o).userName = u.name ∧
        (enrichOrder env o).bookTitle = b.title) ∧
    (∀ idParam oid o u b, parseIntJs idParam = some oid →
        store.find? (fun x => x.id = oid) = some o →
        env.userFetch o.userId = RemoteFetch.payload u → u.name = none →
        env.bookFetch o.bookId = RemoteFetch.payload b → b.title = none →
        ∃ e, getCommandeById idParam store env = ⟨200, .enriched e⟩ ∧
          e.userName = none ∧ e.bookTitle = none ∧
          "userName" ∉ e.jsonKeys ∧ "bookTitle" ∉ e.jsonKeys) := by
  refine ⟨fun u => rfl, fun b => rfl, ?_, ?_, ?_, ?_⟩
  · intro f hf
    rcases f with _ | _ | u
    · exact Or.inl rfl
    · exact Or.inr (Or.inl rfl)
    · exact Or.inr (Or.inr ⟨u, rfl, hf⟩)
  · intro f hf
    rcases f with _ | _ | b
    · exact Or.inl rfl
    · exact Or.inr (Or.inl rfl)
    · exact Or.inr (Or.inr ⟨b, rfl, hf⟩)
  · intro o u b hu hb
    unfold enrichOrder
    rw [hu, hb]
    exact ⟨rfl, rfl⟩
  · intro idParam oid o u b hp hf hu hn hb ht
    refine ⟨⟨o, userNameField (env.userFetch o.userId),
             bookTitleField (env.bookFetch o.bookId)⟩, ?_, ?_, ?_, ?_, ?_⟩
    · unfold getCommandeById
      simp only [hp, hf]
      rfl
    · rw [hu]; exact hn
    · rw [hb]; exact ht
    · simp only [EnrichedOrder.jsonKeys, hu, hb]
      simp only [userNameField, bookTitleField, hn, ht]
      decide
    · simp only [EnrichedOrder.jsonKeys, hu, hb]
      simp only [userNameField, bookTitleField, hn, ht]
      decide

/-- C10 witness: a successful user lookup whose payload lacks `name`
and a successful book lookup whose payload lacks `title` yield an
enriched order with both fields absent from the JSON. -/
theorem C10_sentinel_only_on_failed_or_empty_lookup_witness :
    ∃ e, getCommandeById "1" [⟨1, 10, 20, 0, "En cours"⟩]
        ⟨fun _ => .payload ⟨none⟩, fun _ => .payload ⟨none⟩⟩ = ⟨200, .enriched e⟩ ∧
      e.userName = none ∧ e.bookTitle = none ∧
      "userName" ∉ e.jsonKeys ∧ "bookTitle" ∉ e.jsonKeys :=
  (C10_sentinel_only_on_failed_or_empty_lookup [⟨1, 10, 20, 0, "En cours"⟩]
      ⟨fun _ => .payload ⟨none⟩, fun _ => .payload ⟨none⟩⟩).2.2.2.2.2
    "1" 1 ⟨1, 10, 20, 0, "En cours"⟩ ⟨none⟩ ⟨none⟩
    (by decide) (by decide) rfl rfl rfl rfl

/-- C7: with both fields present, a nonexistent email and a wrong
password for an existing email produce identical responses: 401 with
the same invalid-credentials body. -/
theorem C7_login_indistinguishable_failures
    (users : List User) (compare : String → String → Bool)
    (email1 pw1 email2 pw2 : String) (u : User)
    (he1 : email1 ≠ "") (hp1 : pw1 ≠ "") (he2 : email2 ≠ "") (hp2 : pw2 ≠ "")
    (h1 : findUserByEmail email1 users = none)
    (h2 : findUserByEmail email2 users = some u)
    (h3 : compare pw2 u.password = false) :
    postLogin ⟨some email1, some pw1⟩ users compare =
      postLogin ⟨some email2, some pw2⟩ users compare ∧
    postLogin ⟨some email1, some pw1⟩ users compare =
      ⟨401, .text "Email ou mot de passe invalide"⟩ := by
  unfold postLogin
  simp only [truthyStr, if_neg he1, if_neg hp1, if_neg he2, if_neg hp2, h1, h2, h3]
  constructor <;> trivial

/-- C7 witness: concrete nonexistent-email and wrong-password attempts
give the same 401 response. -/
theorem C7_login_indistinguishable_failures_witness :
    postLogin ⟨some "nobody@x.y", some "pw"⟩ [⟨1, "a@b.c", "digest", "A"⟩]
        (fun _ _ => false) =
      postLogin ⟨some "a@b.c", some "wrong"⟩ [⟨1, "a@b.c", "digest", "A"⟩]
        (fun _ _ => false) ∧
    postLogin ⟨some "nobody@x.y", some "pw"⟩ [⟨1, "a@b.c", "digest", "A"⟩]
        (fun _ _ => false) =
      ⟨401, .text "Email ou mot de passe invalide"⟩ :=
  C7_login_indistinguishable_failures [⟨1, "a@b.c", "digest", "A"⟩] (fun _ _ => false)
    "nobody@x.y" "pw" "a@b.c" "wrong" ⟨1, "a@b.c", "digest", "A"⟩
    (by decide) (by decide) (by decide) (by decide) (by decide) (by decide) rfl

/-- C8: for an existing book, a body supplying only `year` updates
`year` and leaves `title` and `author` untouched; any 200 outcome
changes only the supplied fields among title/author/year; and a body
supplying none of the three fields is rejected with 400 leaving the
store unchanged. -/
theorem C8_partial_book_update
    (idParam : String) (books : List Book) (bookId : Int) (book : Book)
    (hid : parseIntJs idParam = some bookId)
    (hfind : books.find? (fun b => b.id = bookId) = some book) :
    (∀ y : Option Int,
        putLivre idParam ⟨none, none, some y⟩ books =
          (⟨200, .book { book with year := y }⟩,
           books.map (fun b => if b.id = book.id then { book with year := y } else b))) ∧
    (putLivre idParam ⟨none, none, none⟩ books =
      (⟨400, .text "Au moins un champ (titre, auteur, année) doit être fourni pour la mise à jour"⟩,
       books)) ∧
    (∀ body : UpdateBookBody, ∀ b' : Book,
        (putLivre idParam body books).1 = ⟨200, RespBody.book b'⟩ →
        b'.id = book.id ∧
        (body.title = none → b'.title = book.title) ∧
        (body.author = none → b'.author = book.author) ∧
        (body.year = none → b'.year = book.year)) := by
  refine ⟨?_, ?_, ?_⟩
  · intro y
    unfold putLivre
    simp only [hid, hfind]
    simp [truthyStr]
  · unfold putLivre
    simp only [hid, hfind]
    simp [truthyStr]
  · intro body b' h
    unfold putLivre at h
    simp only [hid, hfind] at h
    rcases ht : truthyStr body.title with _ | t <;>
      rcases ha : truthyStr body.author with _ | a <;>
      rcases hy : body.year with _ | y <;>
      simp only [ht, ha, hy] at h <;>
      simp at h
    · subst h
      exact ⟨rfl, fun _ => rfl, fun _ => rfl,
        fun hby => Option.noConfusion hby⟩
    · subst h
      exact ⟨rfl, fun _ => rfl,
        fun hba => Option.noConfusion (hba ▸ ha), fun _ => rfl⟩
    · subst h
      exact ⟨rfl, fun _ => rfl,
        fun hba => Option.noConfusion (hba ▸ ha),
        fun hby => Option.noConfusion hby⟩
    · subst h
      exact ⟨rfl, fun hbt => Option.noConfusion (hbt ▸ ht),
        fun _ => rfl, fun _ => rfl⟩
    · subst h
      exact ⟨rfl, fun hbt => Option.noConfusion (hbt ▸ ht),
        fun _ => rfl, fun hby => Option.noConfusion hby⟩
    · subst h
      exact ⟨rfl, fun hbt => Option.noConfusion (hbt ▸ ht),
        fun hba => Option.noConfusion (hba ▸ ha), fun _ => rfl⟩
    · subst h
      exact ⟨rfl, fun hbt => Option.noConfusion (hbt ▸ ht),
        fun hba => Option.noConfusion (hba ▸ ha),
        fun hby => Option.noConfusion hby⟩

/-- C8 witness: updating only `year` of a concrete stored book. -/
theorem C8_partial_book_update_witness :
    putLivre "1" ⟨none, none, some (some 1943)⟩
        [⟨1, "Le Petit Prince", "Saint-Exupéry", some 1900⟩] =
      (⟨200, .book ⟨1, "Le Petit Prince", "Saint-Exupéry", some 1943⟩⟩,
       [⟨1, "Le Petit Prince", "Saint-Exupéry", some 1943⟩]) :=
  (C8_partial_book_update "1" [⟨1, "Le Petit Prince", "Saint-Exupéry", some 1900⟩] 1
      ⟨1, "Le Petit Prince", "Saint-Exupéry", some 1900⟩
      (by decide) (by decide)).1 (some 1943)
